import Mathlib

/-!
Verification of the per-container reconciliation logic of the
heat-exchanger repository (src/container.rs), against its natural
language specification.

The embedding models `Container`, its methods `init`, `update`,
`restart`, `save_state` and `get_save_path`, and the serde_json
serialisation used by `save_state`/`init`.  External effects (the Steam
version oracle `get_game_version`, the Docker daemon calls
`inspect_container` and `restart_container`, and the state file on
disk) are passed in as explicit inputs describing the answer each call
would return during the pass; every execution path of the two methods
performs each external call at most once, so one input per call site is
faithful.  Rust panics (the two `FAILED ...` panic sites in `init` and
the unimplemented-action site in `update`) are modelled by the
`Panic` error channel of `Except`: an `Except.error` result means the
process aborts.
-/

namespace HeatExchanger

/-- Modelled from the spec: `SteamVersion` is defined in src/steam.rs,
which is not part of the sources; the spec describes the Tracked
Version as "a totally ordered, equality-comparable opaque value"
obtained as "the version integer from steam", with a serde `default`
used when the field is absent.  We model it as a natural number with
default 0. -/
abbrev SteamVersion := Nat

/-- The default `SteamVersion` used by the `serde(default)` attribute on
`current_version`. -/
def SteamVersion.default : SteamVersion := 0

/-- `UpdateAction` from src/container.rs: the closed set of remediation
actions, with their serde rename tags (`build`, `restart`, `pull`,
`custom`).  `PathBuf` fields are modelled as strings. -/
inductive UpdateAction where
  | DockerBuild (context_path : String)
  | DockerRestart
  | DockerPull (image : String) (tag : String)
  | Custom (chdir : String) (command : String)
deriving DecidableEq, Repr

/-- `Container` from src/container.rs: the per-container descriptor plus
its mutable `current_version`.  The `BTreeMap<String, String>`
`options` field is modelled as an association list. -/
structure Container where
  name : String
  appid : Nat
  current_version : SteamVersion
  action : UpdateAction
  options : List (String × String)
deriving DecidableEq, Repr

/-- JSON values, as produced and consumed by the serde_json calls in
`save_state` and `init`.  Arrays and booleans never occur for the
`Container` schema, so only the constructors the schema needs are
modelled. -/
inductive Json where
  | null
  | num (n : Nat)
  | str (s : String)
  | obj (fields : List (String × Json))

/-- Field lookup in a JSON object's field list (first match). -/
def lookupField : List (String × Json) → String → Option Json
  | [], _ => none
  | (k, v) :: rest, key => if k = key then some v else lookupField rest key

/-- Field lookup on a JSON value: `none` unless it is an object with
the field. -/
def Json.getField : Json → String → Option Json
  | .obj fs, key => lookupField fs key
  | _, _ => none

/-- Decode a JSON field as a string. -/
def Json.asStr : Option Json → Option String
  | some (.str s) => some s
  | _ => none

/-- Decode a JSON field as a number. -/
def Json.asNum : Option Json → Option Nat
  | some (.num n) => some n
  | _ => none

/-- Decode a JSON field as a number, with a serde `default` applied when
the field is missing (present-but-wrong-type is still an error, as in
serde). -/
def Json.asNumDefault (d : Nat) : Option Json → Option Nat
  | some (.num n) => some n
  | none => some d
  | some _ => none

/-- Serialisation of the `options` map: each value becomes a JSON
string. -/
def stringPairsToJson : List (String × String) → List (String × Json)
  | [] => []
  | (k, v) :: rest => (k, .str v) :: stringPairsToJson rest

/-- Deserialisation of the `options` map: every field must be a
string. -/
def stringPairsFromJson : List (String × Json) → Option (List (String × String))
  | [] => some []
  | (k, .str v) :: rest => (stringPairsFromJson rest).map (fun r => (k, v) :: r)
  | _ => none

/-- Decode the `options` field, with the serde `default` (empty map)
when it is missing. -/
def Json.asOptionsDefault : Option Json → Option (List (String × String))
  | some (.obj fs) => stringPairsFromJson fs
  | none => some []
  | some _ => none

/-- serde serialisation of `UpdateAction` (externally tagged enum with
the rename tags): the unit variant serialises as a plain tag string,
the struct variants as a one-field object wrapping their fields. -/
def UpdateAction.toJson : UpdateAction → Json
  | .DockerBuild p => .obj [("build", .obj [("context_path", .str p)])]
  | .DockerRestart => .str "restart"
  | .DockerPull i t => .obj [("pull", .obj [("image", .str i), ("tag", .str t)])]
  | .Custom d c => .obj [("custom", .obj [("chdir", .str d), ("command", .str c)])]

/-- serde deserialisation of `UpdateAction` from the externally tagged
representation produced by `UpdateAction.toJson`. -/
def UpdateAction.fromJson : Json → Option UpdateAction
  | .str s => if s = "restart" then some .DockerRestart else none
  | .obj [(tag, body)] =>
    if tag = "build" then
      match Json.asStr (body.getField "context_path") with
      | some p => some (.DockerBuild p)
      | none => none
    else if tag = "pull" then
      match Json.asStr (body.getField "image"), Json.asStr (body.getField "tag") with
      | some i, some t => some (.DockerPull i t)
      | _, _ => none
    else if tag = "custom" then
      match Json.asStr (body.getField "chdir"), Json.asStr (body.getField "command") with
      | some d, some c => some (.Custom d c)
      | _, _ => none
    else none
  | _ => none

/-- `serde_json::to_string(&self)` in `save_state`, modelled at the JSON
value level: all five fields of `Container` are serialised. -/
def Container.toJson (c : Container) : Json :=
  .obj [("name", .str c.name),
        ("appid", .num c.appid),
        ("current_version", .num c.current_version),
        ("action", c.action.toJson),
        ("options", .obj (stringPairsToJson c.options))]

/-- `serde_json::from_str::<Container>` in `init`, modelled at the JSON
value level: fields are looked up by name (order-insensitive, unknown
fields ignored, as serde's derived deserialiser does), with the
`serde(default)` attributes on `current_version` and `options`
honoured for missing fields. -/
def Container.fromJson (j : Json) : Option Container :=
  (Json.asStr (j.getField "name")).bind fun name =>
  (Json.asNum (j.getField "appid")).bind fun appid =>
  (Json.asNumDefault SteamVersion.default (j.getField "current_version")).bind fun cv =>
  ((j.getField "action").bind UpdateAction.fromJson).bind fun action =>
  (Json.asOptionsDefault (j.getField "options")).bind fun options =>
  some ⟨name, appid, cv, action, options⟩

/-- The answer the Docker daemon gives to the single
`inspect_container` call in `update`: `err` is an `Err` from bollard;
`ok state` is `Ok(r)` with `r.state : Option<ContainerState>` and, when
present, `state.running : Option<bool>`. -/
inductive InspectResult where
  | err
  | ok (state : Option (Option Bool))
deriving DecidableEq, Repr

/-- Rust panic sites in src/container.rs, each aborting the process:
the two `FAILED` panics in `init` (state file unreadable,
state undeserialisable) and the unimplemented-action site in
`update`. -/
inductive Panic where
  | readState
  | decodeState
  | todoAction
deriving DecidableEq, Repr

/-- Classification of which return site of `update` ended the pass.
The Rust method returns `()` and distinguishes these paths only through
its log lines; the constructors name the paths using the spec's Outcome
vocabulary.  `Failed` covers the oracle-error return, the two
inspect-error returns and the restart-error fallthrough; `Skipped` the
container-not-running return. -/
inductive Outcome where
  | Failed
  | UpToDate
  | Skipped
  | Updated
deriving DecidableEq, Repr

/-- A write performed against the state store: the file path and the
serialised content written there. -/
structure SaveRecord where
  path : String
  content : Json

/-- The result of one completed (non-panicking) `update` pass: the
container afterwards (`self` after the `&mut self` call), the return
site taken, and the state-store writes `update` performed during the
pass. -/
structure PassResult where
  container : Container
  outcome : Outcome
  saves : List SaveRecord

/-- `Container::restart` from src/container.rs: forwards the Docker
`restart_container` answer, `Ok(())` on success and the error
otherwise.  `dockerRestartOk` is the answer of the single
`restart_container` call. -/
def Container.restart (_self : Container) (dockerRestartOk : Bool) : Except Unit Unit :=
  if dockerRestartOk then .ok () else .error ()

/-- `Container::update` from src/container.rs.  `oracle` is the answer
of the single `get_game_version` call of the pass, `inspect` the answer
of the single `inspect_container` call, `dockerRestartOk` the answer of
the `restart_container` call; each path uses each at most once, quoting
the code in order:
1. oracle `Err` logs FAILED and returns;
2. `current_version == new_version` logs UP-TO-DATE and returns;
3. inspect `Err`, or `Ok` without a state, logs FAILED and returns;
   `container_running` is `state.running == Some(true)`;
4. not running warns and returns;
5. `DockerRestart` runs `restart` and sets
   `current_version = new_version` only on `Ok`; any other action hits
   the unimplemented-action panic.
No path calls `save_state`, so `saves` is `[]` at every return site. -/
def Container.update (self : Container) (oracle : Except String SteamVersion)
    (inspect : InspectResult) (dockerRestartOk : Bool) : Except Panic PassResult :=
  match oracle with
  | .error _ => .ok ⟨self, .Failed, []⟩
  | .ok new_version =>
    if self.current_version = new_version then
      .ok ⟨self, .UpToDate, []⟩
    else
      match inspect with
      | .err => .ok ⟨self, .Failed, []⟩
      | .ok none => .ok ⟨self, .Failed, []⟩
      | .ok (some running) =>
        if ¬ (running = some true) then
          .ok ⟨self, .Skipped, []⟩
        else
          match self.action with
          | .DockerRestart =>
            match self.restart dockerRestartOk with
            | .ok _ => .ok ⟨{ self with current_version := new_version }, .Updated, []⟩
            | .error _ => .ok ⟨self, .Failed, []⟩
          | _ => .error .todoAction

/-- `Container::get_save_path` from src/container.rs: joins the state
directory with `{name}.json`. -/
def Container.get_save_path (self : Container) (dir : String) : String :=
  dir ++ "/" ++ self.name ++ ".json"

/-- `Container::save_state` from src/container.rs: serialises the
container with serde_json and writes it to the save path.  The write is
returned as the `SaveRecord` it produces on disk. -/
def Container.save_state (self : Container) (dir : String) : SaveRecord :=
  ⟨self.get_save_path dir, self.toJson⟩

/-- What is on disk at this container's save path when `init` runs:
`none` models `save_path.exists()` false; `some (.error ())` a path
that exists but whose `read_to_string` fails; `some (.ok j)` a readable
file holding the JSON value `j`. -/
abbrev SnapshotFile := Option (Except Unit Json)

/-- The result of one completed (non-panicking) `init` call: the
container afterwards, the outcome of the nested `update` pass when one
ran (the snapshot branch runs exactly one; the no-snapshot branch runs
none), and the state-store writes performed. -/
structure InitOk where
  container : Container
  reconcileOutcome : Option Outcome
  saves : List SaveRecord

/-- `Container::init` from src/container.rs, quoting the code in order:
if the save file exists, a failed read panics, a failed deserialisation
panics, and otherwise `current_version` is copied from the decoded
snapshot and one `update` pass runs; if no save file exists,
`get_game_version` is called once and `current_version` is set from it
on `Ok`, while `Err` only logs FAILED (state unchanged).  Neither
branch calls `save_state`. -/
def Container.init (self : Container) (snapshot : SnapshotFile)
    (oracle : Except String SteamVersion) (inspect : InspectResult)
    (dockerRestartOk : Bool) : Except Panic InitOk :=
  match snapshot with
  | some (.error _) => .error .readState
  | some (.ok content) =>
    match Container.fromJson content with
    | none => .error .decodeState
    | some saved_version =>
      (Container.update { self with current_version := saved_version.current_version }
          oracle inspect dockerRestartOk).map
        fun r => ⟨r.container, some r.outcome, r.saves⟩
  | none =>
    match oracle with
    | .ok v => .ok ⟨{ self with current_version := v }, none, []⟩
    | .error _ => .ok ⟨self, none, []⟩

/-- Serialising the `options` association list and decoding it again is
the identity. -/
theorem stringPairs_round_trip (o : List (String × String)) :
    stringPairsFromJson (stringPairsToJson o) = some o := by
  induction o with
  | nil => rfl
  | cons h t ih =>
    obtain ⟨k, v⟩ := h
    simp [stringPairsToJson, stringPairsFromJson, ih]

/-- Serialising an `UpdateAction` and decoding it again is the
identity. -/
theorem updateAction_round_trip (a : UpdateAction) :
    UpdateAction.fromJson a.toJson = some a := by
  cases a <;>
    simp [UpdateAction.toJson, UpdateAction.fromJson, Json.getField, lookupField, Json.asStr]

/-- Serialising a `Container` as `save_state` does and decoding it as
`init` does is the identity. -/
theorem container_round_trip (c : Container) :
    Container.fromJson c.toJson = some c := by
  obtain ⟨name, appid, cv, action, options⟩ := c
  simp [Container.toJson, Container.fromJson, Json.getField, lookupField,
        Json.asStr, Json.asNum, Json.asNumDefault, Json.asOptionsDefault,
        updateAction_round_trip, stringPairs_round_trip]

/-- Characterisation of every successful `update` pass: no state-store
write ever happens, and the container either is returned unchanged with
a non-`Updated` outcome, or `current_version` is set to exactly the
value the oracle returned and the outcome is `Updated`. -/
theorem update_ok_inv (c : Container) (o : Except String SteamVersion)
    (i : InspectResult) (rk : Bool) (r : PassResult)
    (h : Container.update c o i rk = .ok r) :
    r.saves = [] ∧
    ((r.container = c ∧ r.outcome ≠ Outcome.Updated) ∨
     (∃ v, o = Except.ok v ∧ r.container = { c with current_version := v }
        ∧ r.outcome = Outcome.Updated)) := by
  unfold Container.update at h
  split at h
  · injection h with h; subst h; exact ⟨rfl, Or.inl ⟨rfl, by simp⟩⟩
  · split at h
    · injection h with h; subst h; exact ⟨rfl, Or.inl ⟨rfl, by simp⟩⟩
    · split at h
      · injection h with h; subst h; exact ⟨rfl, Or.inl ⟨rfl, by simp⟩⟩
      · injection h with h; subst h; exact ⟨rfl, Or.inl ⟨rfl, by simp⟩⟩
      · split at h
        · injection h with h; subst h; exact ⟨rfl, Or.inl ⟨rfl, by simp⟩⟩
        · split at h
          · split at h
            · injection h with h; subst h
              exact ⟨rfl, Or.inr ⟨_, rfl, rfl, rfl⟩⟩
            · injection h with h; subst h; exact ⟨rfl, Or.inl ⟨rfl, by simp⟩⟩
          · exact absurd h (by simp)

/-- Claim C1, counterexample: at a concrete input where `update` sees a
drifted version (5 to 6), finds the container running and the restart
succeeds, the pass sets `current_version` to 6 and ends at the
`Updated` return site, but its list of state-store writes is empty:
`update` never calls `save_state`, so the new state is not persisted
before the pass completes, contrary to the claim. -/
theorem update_success_no_persist_cex :
    ∃ r, Container.update ⟨"svc1", 10, 5, .DockerRestart, []⟩ (.ok 6)
        (.ok (some (some true))) true = .ok r
      ∧ r.outcome = .Updated ∧ r.container.current_version = 6 ∧ r.saves = [] :=
  ⟨⟨⟨"svc1", 10, 6, .DockerRestart, []⟩, .Updated, []⟩, rfl, rfl, rfl, rfl⟩

/-- Claim C1 (amended): when `update` observes a drifted version, finds
the container running and the configured `DockerRestart` action
succeeds, it sets `current_version` to the newly observed version and
ends at the `Updated` return site, but performs no state-store write
during the pass (persistence is a separate `save_state` method that
`update` never invokes). -/
theorem update_restart_success_sets_version_without_save
    (c : Container) (v : SteamVersion)
    (hv : v ≠ c.current_version) (ha : c.action = UpdateAction.DockerRestart) :
    Container.update c (.ok v) (.ok (some (some true))) true
      = .ok ⟨{ c with current_version := v }, .Updated, []⟩ := by
  obtain ⟨name, appid, cv, action, options⟩ := c
  have hv' : ¬ (cv = v) := fun h => hv (by simpa using h.symm)
  have ha' : action = UpdateAction.DockerRestart := ha
  subst ha'
  simp [Container.update, hv', Container.restart]

/-- Witness for the amended C1 theorem at the concrete input of the
counterexample. -/
theorem update_restart_success_sets_version_without_save_witness :
    Container.update ⟨"svc1", 10, 5, .DockerRestart, []⟩ (.ok 6)
        (.ok (some (some true))) true
      = .ok ⟨{ (⟨"svc1", 10, 5, .DockerRestart, []⟩ : Container) with
                current_version := 6 }, .Updated, []⟩ :=
  update_restart_success_sets_version_without_save
    ⟨"svc1", 10, 5, .DockerRestart, []⟩ 6 (by decide) rfl

/-- Claim C2, counterexample: at a concrete input whose snapshot file
exists but cannot be read, `init` ends in a Rust panic (the `FAILED to
read state file` panic site), which aborts the whole process; it never
returns a contained per-container result, so the failure is not
isolated to that container as the claim states. -/
theorem init_corrupt_state_not_contained_cex :
    Container.init ⟨"svc1", 10, 0, .DockerRestart, []⟩ (some (.error ())) (.ok 5)
        (.ok (some (some true))) true = .error Panic.readState
    ∧ ∀ r, Container.init ⟨"svc1", 10, 0, .DockerRestart, []⟩ (some (.error ()))
        (.ok 5) (.ok (some (some true))) true ≠ .ok r :=
  ⟨rfl, fun _ h => Except.noConfusion h⟩

/-- Claim C2 (amended): when the persisted snapshot exists but cannot
be read, `init` panics with the read-failure panic, and when it reads
but cannot be decoded, `init` panics with the deserialisation panic;
either panic aborts the whole process rather than containing the
failure to the affected container. -/
theorem init_corrupt_snapshot_panics (c : Container)
    (o : Except String SteamVersion) (i : InspectResult) (rk : Bool) :
    Container.init c (some (.error ())) o i rk = .error Panic.readState
    ∧ ∀ j, Container.fromJson j = none →
        Container.init c (some (.ok j)) o i rk = .error Panic.decodeState := by
  refine ⟨rfl, fun j hj => ?_⟩
  simp [Container.init, hj]

/-- Witness for the amended C2 theorem: `Json.null` decodes to no
container, and `init` on it panics at the deserialisation site. -/
theorem init_corrupt_snapshot_panics_witness :
    Container.init ⟨"svc1", 10, 0, .DockerRestart, []⟩ (some (.ok Json.null))
        (.ok 5) .err true = .error Panic.decodeState :=
  (init_corrupt_snapshot_panics ⟨"svc1", 10, 0, .DockerRestart, []⟩
    (.ok 5) .err true).2 Json.null rfl

/-- Claim C3, counterexample: at a concrete input with no prior
snapshot and the oracle returning 5, `init` seeds `current_version`
to 5 but performs no state-store write (the seeded state is not
persisted, contrary to the claim) and runs no reconcile pass within the
call (`reconcileOutcome` is `none`). -/
theorem init_seed_not_persisted_cex :
    ∃ r, Container.init ⟨"svc1", 10, 0, .DockerRestart, []⟩ none (.ok 5) .err true
        = .ok r
      ∧ r.container.current_version = 5 ∧ r.saves = [] ∧ r.reconcileOutcome = none :=
  ⟨⟨⟨"svc1", 10, 5, .DockerRestart, []⟩, none, []⟩, rfl, rfl, rfl, rfl⟩

/-- Claim C3 (amended): with no prior snapshot, `init` queries the
oracle once and on success seeds `current_version` from the result, but
does not persist the seeded state and runs no reconcile pass in this
branch; a subsequent `update` pass under an unchanged oracle answer
returns `UpToDate` with the container unchanged. -/
theorem init_seed_without_persist_then_up_to_date (c : Container) (v : SteamVersion)
    (i i2 : InspectResult) (rk rk2 : Bool) :
    Container.init c none (.ok v) i rk = .ok ⟨{ c with current_version := v }, none, []⟩
    ∧ Container.update { c with current_version := v } (.ok v) i2 rk2
        = .ok ⟨{ c with current_version := v }, .UpToDate, []⟩ :=
  ⟨rfl, by simp [Container.update]⟩

/-- Claim C5: when the oracle answer equals `current_version`, `update`
returns at the `UpToDate` site with the container unchanged and no
state-store write, and the result does not depend on the runtime
answers (no runtime call is consumed, no action dispatched); repeating
the pass under an unchanged oracle answer gives the identical result
(steady-state idempotence). -/
theorem update_steady_state_idempotent (c : Container) (v : SteamVersion)
    (i i2 : InspectResult) (rk rk2 : Bool) (hv : v = c.current_version) :
    Container.update c (.ok v) i rk = .ok ⟨c, .UpToDate, []⟩
    ∧ Container.update c (.ok v) i2 rk2 = .ok ⟨c, .UpToDate, []⟩ := by
  subst hv
  exact ⟨by simp [Container.update], by simp [Container.update]⟩

/-- Witness for C5 at a concrete container with matching oracle
answer. -/
theorem update_steady_state_idempotent_witness :
    Container.update ⟨"svc1", 10, 5, .DockerRestart, []⟩ (.ok 5) .err true
        = .ok ⟨⟨"svc1", 10, 5, .DockerRestart, []⟩, .UpToDate, []⟩
    ∧ Container.update ⟨"svc1", 10, 5, .DockerRestart, []⟩ (.ok 5)
        (.ok (some (some true))) false
        = .ok ⟨⟨"svc1", 10, 5, .DockerRestart, []⟩, .UpToDate, []⟩ :=
  update_steady_state_idempotent ⟨"svc1", 10, 5, .DockerRestart, []⟩ 5 .err
    (.ok (some (some true))) true false rfl

/-- Claim C6: on drift, if the runtime inspection reports the container
as not running (a state whose running flag is not `Some(true)`),
`update` returns at the `Skipped` site with the container unchanged and
no state-store write, regardless of the drifted oracle value; a runtime
inspection failure (an `Err`, or an `Ok` carrying no state) instead
returns at a `Failed` site, also with nothing changed or persisted. -/
theorem update_drift_not_running_skipped (c : Container) (v : SteamVersion)
    (running : Option Bool) (rk rk2 : Bool)
    (hv : v ≠ c.current_version) (hr : running ≠ some true) :
    Container.update c (.ok v) (.ok (some running)) rk = .ok ⟨c, .Skipped, []⟩
    ∧ Container.update c (.ok v) .err rk2 = .ok ⟨c, .Failed, []⟩
    ∧ Container.update c (.ok v) (.ok none) rk2 = .ok ⟨c, .Failed, []⟩ := by
  refine ⟨?_, ?_, ?_⟩ <;> simp [Container.update, Ne.symm hv, hr]

/-- Witness for C6 at a concrete drifted container reported as not
running. -/
theorem update_drift_not_running_skipped_witness :
    Container.update ⟨"svc1", 10, 5, .DockerRestart, []⟩ (.ok 6)
        (.ok (some (some false))) true
        = .ok ⟨⟨"svc1", 10, 5, .DockerRestart, []⟩, .Skipped, []⟩
    ∧ Container.update ⟨"svc1", 10, 5, .DockerRestart, []⟩ (.ok 6) .err false
        = .ok ⟨⟨"svc1", 10, 5, .DockerRestart, []⟩, .Failed, []⟩
    ∧ Container.update ⟨"svc1", 10, 5, .DockerRestart, []⟩ (.ok 6) (.ok none) false
        = .ok ⟨⟨"svc1", 10, 5, .DockerRestart, []⟩, .Failed, []⟩ :=
  update_drift_not_running_skipped ⟨"svc1", 10, 5, .DockerRestart, []⟩ 6
    (some false) true false (by decide) (by decide)

/-- Claim C7: when the oracle call fails, `update` returns at the first
`Failed` site with the container completely unchanged and no state-store
write, independent of the runtime answers; the pass is a no-op. -/
theorem update_oracle_failure_failed_no_change (c : Container) (e : String)
    (i : InspectResult) (rk : Bool) :
    Container.update c (.error e) i rk = .ok ⟨c, .Failed, []⟩ := rfl

/-- Claim C4, counterexample: hydration assigns `current_version` a
value that no oracle query returned.  At a concrete input, `init` finds
a snapshot recording version 7 while the only oracle call of the whole
pass fails, yet after the pass `current_version` is 7 (it started
at 0): the assignment came from the persisted snapshot, not from a
value "returned directly by a Version Oracle query". -/
theorem hydration_assigns_non_oracle_version_cex :
    ∃ r, Container.init ⟨"svc1", 10, 0, .DockerRestart, []⟩
          (some (.ok (Container.toJson ⟨"svc1", 10, 7, .DockerRestart, []⟩)))
          (.error "network error") .err true = .ok r
      ∧ r.container.current_version = 7
      ∧ (⟨"svc1", 10, 0, .DockerRestart, []⟩ : Container).current_version = 0 :=
  ⟨⟨⟨"svc1", 10, 7, .DockerRestart, []⟩, some .Failed, []⟩, rfl, rfl, rfl⟩

/-- Claim C4 (amended): during a `update` pass, `current_version` is
either left unchanged or assigned exactly the value returned by the
oracle call of that pass, and after a pass ending at the `Updated` site
it equals exactly that oracle value; during an `init` pass on a decoded
snapshot, `current_version` additionally may be assigned the snapshot's
persisted value (hydration), which need not come from any oracle
query. -/
theorem current_version_provenance (c : Container) (o : Except String SteamVersion)
    (i : InspectResult) (rk : Bool) :
    (∀ r, Container.update c o i rk = .ok r →
        r.container.current_version = c.current_version
        ∨ o = .ok r.container.current_version)
    ∧ (∀ r, Container.update c o i rk = .ok r → r.outcome = .Updated →
        o = .ok r.container.current_version)
    ∧ (∀ j saved r, Container.fromJson j = some saved →
        Container.init c (some (.ok j)) o i rk = .ok r →
        r.container.current_version = saved.current_version
        ∨ o = .ok r.container.current_version) := by
  refine ⟨fun r h => ?_, fun r h hu => ?_, fun j saved r hj h => ?_⟩
  · rcases (update_ok_inv c o i rk r h).2 with ⟨hc, _⟩ | ⟨v, ho, hc, _⟩
    · exact Or.inl (by rw [hc])
    · refine Or.inr ?_
      rw [hc]
      exact ho
  · rcases (update_ok_inv c o i rk r h).2 with ⟨_, hne⟩ | ⟨v, ho, hc, _⟩
    · exact absurd hu hne
    · rw [hc]
      exact ho
  · rw [show Container.init c (some (.ok j)) o i rk
        = (Container.update { c with current_version := saved.current_version } o i rk).map
            (fun r => ⟨r.container, some r.outcome, r.saves⟩)
      from by simp [Container.init, hj]] at h
    cases hu : Container.update { c with current_version := saved.current_version } o i rk with
    | error p =>
      rw [hu] at h
      exact absurd h (by simp [Except.map])
    | ok r2 =>
      rw [hu] at h
      simp only [Except.map] at h
      injection h with h
      subst h
      rcases (update_ok_inv _ o i rk r2 hu).2 with ⟨hc, _⟩ | ⟨v, ho, hc, _⟩
      · exact Or.inl (by rw [hc])
      · refine Or.inr ?_
        rw [hc]
        exact ho

/-- Witness for the amended C4 theorem: its `Updated` part applied at a
concrete successful restart pass. -/
theorem current_version_provenance_witness :
    (Except.ok 6 : Except String SteamVersion)
      = .ok (⟨"svc1", 10, 6, .DockerRestart, []⟩ : Container).current_version :=
  (current_version_provenance ⟨"svc1", 10, 5, .DockerRestart, []⟩ (.ok 6)
      (.ok (some (some true))) true).2.1
    ⟨⟨"svc1", 10, 6, .DockerRestart, []⟩, .Updated, []⟩ rfl rfl

/-- Claim C8: when the snapshot file is readable and decodes, `init` is
exactly hydration (copying the snapshot's `current_version` into the
container) followed by one single `update` pass on the hydrated
container; in particular this branch never seeds `current_version`
directly from a fresh oracle query. -/
theorem init_snapshot_hydrates_then_one_reconcile (c : Container) (j : Json)
    (saved : Container) (o : Except String SteamVersion) (i : InspectResult) (rk : Bool)
    (hj : Container.fromJson j = some saved) :
    Container.init c (some (.ok j)) o i rk
      = (Container.update { c with current_version := saved.current_version } o i rk).map
          (fun r => ⟨r.container, some r.outcome, r.saves⟩) := by
  simp [Container.init, hj]

/-- Witness for C8 at a concrete decodable snapshot. -/
theorem init_snapshot_hydrates_then_one_reconcile_witness :
    Container.init ⟨"svc1", 10, 0, .DockerRestart, []⟩
        (some (.ok (Container.toJson ⟨"svc1", 10, 7, .DockerRestart, []⟩)))
        (.ok 7) .err true
      = (Container.update { (⟨"svc1", 10, 0, .DockerRestart, []⟩ : Container) with
            current_version :=
              (⟨"svc1", 10, 7, .DockerRestart, []⟩ : Container).current_version }
          (.ok 7) .err true).map (fun r => ⟨r.container, some r.outcome, r.saves⟩) :=
  init_snapshot_hydrates_then_one_reconcile ⟨"svc1", 10, 0, .DockerRestart, []⟩
    (Container.toJson ⟨"svc1", 10, 7, .DockerRestart, []⟩)
    ⟨"svc1", 10, 7, .DockerRestart, []⟩ (.ok 7) .err true rfl

/-- Claim C9: the record `save_state` writes for a container decodes,
through the deserialisation `init` uses, back to that very container;
in particular the decoded state carries an equal `current_version`. -/
theorem save_then_load_round_trip (c : Container) (dir : String) :
    Container.fromJson (Container.save_state c dir).content = some c
    ∧ (Container.fromJson (Container.save_state c dir).content).map
        Container.current_version = some c.current_version := by
  have h : Container.fromJson (Container.save_state c dir).content = some c :=
    container_round_trip c
  exact ⟨h, by rw [h]; rfl⟩

/-- Claim C10: for a container whose configured action is not
`DockerRestart`, any `update` pass that observes drift and finds the
container running ends at the unimplemented-action panic; and whenever
the action is `DockerRestart`, `update` never panics (it is total,
always producing a completed pass). -/
theorem update_todo_unreachable_iff_restart (c : Container) (v : SteamVersion) (rk : Bool)
    (hv : v ≠ c.current_version) (ha : c.action ≠ UpdateAction.DockerRestart) :
    Container.update c (.ok v) (.ok (some (some true))) rk = .error Panic.todoAction
    ∧ ∀ (c2 : Container) (o : Except String SteamVersion) (i : InspectResult) (rk2 : Bool),
        c2.action = UpdateAction.DockerRestart →
        ∃ r, Container.update c2 o i rk2 = .ok r := by
  constructor
  · obtain ⟨name, appid, cv, action, options⟩ := c
    have hv' : ¬ (cv = v) := fun h => hv (by simpa using h.symm)
    cases action with
    | DockerRestart => exact absurd rfl ha
    | DockerBuild p => simp [Container.update, hv']
    | DockerPull im t => simp [Container.update, hv']
    | Custom d cmd => simp [Container.update, hv']
  · intro c2 o i rk2 ha2
    obtain ⟨n2, a2, cv2, act2, opt2⟩ := c2
    have ha3 : act2 = UpdateAction.DockerRestart := ha2
    subst ha3
    cases o with
    | error e => exact ⟨_, rfl⟩
    | ok w =>
      by_cases hw : cv2 = w
      · refine ⟨⟨⟨n2, a2, cv2, .DockerRestart, opt2⟩, .UpToDate, []⟩, ?_⟩
        simp [Container.update, hw]
      · cases i with
        | err =>
          refine ⟨⟨⟨n2, a2, cv2, .DockerRestart, opt2⟩, .Failed, []⟩, ?_⟩
          simp [Container.update, hw]
        | ok st =>
          cases st with
          | none =>
            refine ⟨⟨⟨n2, a2, cv2, .DockerRestart, opt2⟩, .Failed, []⟩, ?_⟩
            simp [Container.update, hw]
          | some running =>
            by_cases hr : running = some true
            · cases rk2 with
              | true =>
                refine ⟨⟨⟨n2, a2, w, .DockerRestart, opt2⟩, .Updated, []⟩, ?_⟩
                simp [Container.update, hw, hr, Container.restart]
              | false =>
                refine ⟨⟨⟨n2, a2, cv2, .DockerRestart, opt2⟩, .Failed, []⟩, ?_⟩
                simp [Container.update, hw, hr, Container.restart]
            · refine ⟨⟨⟨n2, a2, cv2, .DockerRestart, opt2⟩, .Skipped, []⟩, ?_⟩
              simp [Container.update, hw, hr]

/-- Witness for C10: a `DockerBuild` container at a drifted, running
input panics at the unimplemented-action site. -/
theorem update_todo_unreachable_iff_restart_witness :
    Container.update ⟨"svc1", 10, 5, .DockerBuild "ctx", []⟩ (.ok 6)
        (.ok (some (some true))) true = .error Panic.todoAction :=
  (update_todo_unreachable_iff_restart ⟨"svc1", 10, 5, .DockerBuild "ctx", []⟩ 6 true
    (by decide) (by decide)).1

end HeatExchanger
